import Mathlib

/-!
Shallow embedding of `examples_for_lessons/collision_detection/models.py`:
a 2D side-scrolling runner core (bounding-box collision, jump/gravity
kinematics, obstacle spawn/expiry).  Python floats are modelled exactly by
rationals; the module-level constants keep their source values.  Python
statements that raise (the deque-vs-int comparison on line 71, the
zero-argument call on line 72) are modelled as explicit error results,
with any state mutated before the raise preserved, matching Python
exception semantics.
-/

/-- Module constant `GROUND_Y_LEVEL = -0.8` (models.py line 20). -/
def GROUND_Y_LEVEL : ℚ := -4/5

/-- Module constant `INITIAL_JUMP_SPEED_IN_Y = 0.3` (models.py line 21). -/
def INITIAL_JUMP_SPEED_IN_Y : ℚ := 3/10

/-- Module constant `GRAVITY = 0.2` (models.py line 22). -/
def GRAVITY : ℚ := 1/5

/-- Module constant `DESTRUCT_OFFSET_IN_X = 1.0` (models.py line 178). -/
def DESTRUCT_OFFSET_IN_X : ℚ := 1

/-- Class attribute `ObstacleManager.X_DISTANCE_BETWEEN_OBSTACLES_STD = 0.3`
(models.py line 43). -/
def X_DISTANCE_BETWEEN_OBSTACLES_STD : ℚ := 3/10

/-- Class attribute `ObstacleManager.FIRST_OBSTACLE_OFFSET_IN_X = 0.8`
(models.py line 44). -/
def FIRST_OBSTACLE_OFFSET_IN_X : ℚ := 4/5

/-- The fields set by `CollisionObject.__init__` (models.py lines 119-125):
a position and four directional extents.  `Obstacle` adds no state beyond
these, so obstacles are modelled by this structure as well. -/
structure CollisionObject where
  x : ℚ
  y : ℚ
  lower_x_bound : ℚ
  higher_x_bound : ℚ
  lower_y_bound : ℚ
  higher_y_bound : ℚ
deriving DecidableEq

/-- Embeds `CollisionObject.is_colliding_with_object` (models.py lines
127-134).  The Python chained comparison `a <= b <= c` is `a <= b and
b <= c`.  The method performs no assignment, so its embedding is a pure
predicate on the two objects. -/
def CollisionObject.is_colliding_with_object (self other : CollisionObject) : Bool :=
  let collides_in_x := decide (other.lower_x_bound ≤ self.x - other.x) &&
                       decide (self.x - other.x ≤ other.higher_x_bound)
  let collides_in_y := decide (other.lower_y_bound ≤ self.y - other.y) &&
                       decide (self.y - other.y ≤ other.higher_y_bound)
  if collides_in_x && collides_in_y then true else false

/-- Embeds `ObstacleManager._obstacles_do_overlap` (models.py lines 98-114):
the two-axis directional overlap check used by the placement loop. -/
def obstacles_do_overlap (obs1 obs2 : CollisionObject) : Bool :=
  let x_overlap :=
    if obs1.x ≤ obs2.x then
      decide (obs1.higher_x_bound ≥ obs2.lower_x_bound)
    else
      decide (obs1.higher_x_bound ≤ obs2.lower_x_bound)
  let y_overlap :=
    if obs1.y ≥ obs2.y then
      decide (obs1.lower_y_bound ≥ obs2.higher_y_bound)
    else
      decide (obs1.lower_y_bound ≤ obs2.higher_y_bound)
  x_overlap && y_overlap

/-- The `TypeError` raised on models.py line 71: `cls.obstacles <= 0`
compares a `collections.deque` with an `int`, which Python 3 rejects
before `len` is ever applied. -/
def typeErrorDequeInt : String :=
  "TypeError: le not supported between instances of collections.deque and int"

/-- Embeds the Python 3 rich comparison of a `deque` against an `int`:
it unconditionally raises `TypeError`. -/
def deque_le_int (_d : List CollisionObject) (_n : ℤ) : Except String Bool :=
  Except.error typeErrorDequeInt

/-- The `TypeError` raised by the call on models.py line 72, which invokes
`cls._simple_set_obstacle_at_the_right_of_player()` without the required
`curr_obstacle` argument. -/
def missingArgumentError : String :=
  "TypeError: simple_set_obstacle_at_the_right_of_player missing 1 required positional argument"

/-- Embeds `ObstacleManager._simple_set_obstacle_at_the_right_of_player`
as it is defined (models.py lines 89-95), with the `curr_obstacle`
parameter that its caller on line 72 fails to pass: sets the obstacle just
to the right of the player and appends it to the deque. -/
def simple_set_obstacle_at_the_right_of_player (player_x : ℚ)
    (curr_obstacle : CollisionObject) (obstacles : List CollisionObject) :
    List CollisionObject :=
  obstacles ++ [{ curr_obstacle with x := player_x + FIRST_OBSTACLE_OFFSET_IN_X }]

/-- Embeds the reallocation loop of `_set_random_position` (models.py lines
84-86).  In the source, `last_positioned_obstacle = cls.obstacles[-1]` is the
very obstacle that `add_new_obstacle` just appended, so `curr` and `last`
alias the same deque cell: the overlap test compares the obstacle with
itself and each redraw starts from the x written by the previous one.
`draws` supplies the successive `np.random.randn(1)` samples and `fuel`
bounds the otherwise unbounded `while`. -/
def reallocate (fuel : ℕ) (curr : CollisionObject) (sigma : ℚ)
    (draws : ℕ → ℚ) (i : ℕ) : Option CollisionObject :=
  match fuel with
  | 0 => none
  | f + 1 =>
    if obstacles_do_overlap curr curr then
      reallocate f { curr with x := curr.x + |draws i * (sigma / 2)| }
        (sigma / 2) draws (i + 1)
    else
      some curr

/-- Embeds `ObstacleManager._set_random_position` (models.py lines 62-86)
under Python 3 semantics; the obstacle being placed is the last element of
`obstacles`.  Returns the deque state together with the raised exception,
if any.  The guard on line 71, `if len(cls.obstacles <= 0):`, evaluates
`cls.obstacles <= 0` first, so every call raises `TypeError` before any
position is assigned; the remaining lines are embedded faithfully but are
unreachable. -/
def set_random_position (obstacles : List CollisionObject)
    (draws : ℕ → ℚ) (fuel : ℕ) : List CollisionObject × Option String :=
  match deque_le_int obstacles 0 with
  | Except.error e => (obstacles, some e)
  | Except.ok b =>
    if b then
      (obstacles, some missingArgumentError)
    else
      match obstacles.getLast? with
      | none => (obstacles, some "IndexError: deque index out of range")
      | some last =>
        let curr : CollisionObject :=
          { last with x := last.x + |draws 0 * X_DISTANCE_BETWEEN_OBSTACLES_STD| }
        match reallocate fuel curr X_DISTANCE_BETWEEN_OBSTACLES_STD draws 1 with
        | none => (obstacles, some "placement loop did not terminate")
        | some final => (obstacles.dropLast ++ [final], none)

/-- Embeds `ObstacleManager.add_new_obstacle` (models.py lines 57-60):
append to the tail of the deque, then position the obstacle via
`_set_random_position`.  The append is a state mutation that persists even
when the positioning step raises. -/
def add_new_obstacle (obstacles : List CollisionObject)
    (obstacle : CollisionObject) (draws : ℕ → ℚ) (fuel : ℕ) :
    List CollisionObject × Option String :=
  set_random_position (obstacles ++ [obstacle]) draws fuel

/-- Embeds `Obstacle.check_for_destroy` (models.py lines 191-194) acting on
the manager state: when `self.x <= camera_position - DESTRUCT_OFFSET_IN_X`
the body executes `del self`, which merely unbinds the local name `self`
and leaves the manager deque untouched, so both branches return the deque
unchanged. -/
def check_for_destroy (camera_position : ℚ) (self : CollisionObject)
    (obstacles : List CollisionObject) : List CollisionObject :=
  if self.x ≤ camera_position - DESTRUCT_OFFSET_IN_X then
    obstacles
  else
    obstacles

/-- The external input collaborator: the consumable jump flag read and
cleared by `Player.update` (models.py lines 153-157). -/
structure Controller where
  jump_action_queued : Bool
deriving DecidableEq

/-- The `Player` state (models.py lines 137-147): a `CollisionObject`
plus `speed = [vx, vy]` and the `_is_in_air` flag. -/
structure Player extends CollisionObject where
  speed : ℚ × ℚ
  is_in_air : Bool
deriving DecidableEq

/-- Embeds `Player.update` (models.py lines 149-166) in single-assignment
form, preserving the statement order of the source: advance the position
with the previous velocity; start a jump when queued and grounded; when
airborne subtract `GRAVITY * dt` from the vertical speed and recompute the
flag as `y >= GROUND_Y_LEVEL`, otherwise zero the vertical speed; finally
`y = max(y + vy * dt, GROUND_Y_LEVEL)` with the just-updated speed.
Returns the updated player and controller. -/
def Player.update (s : Player) (c : Controller) (dt : ℚ) : Player × Controller :=
  let x1 := s.x + s.speed.1 * dt
  let y1 := s.y + s.speed.2 * dt
  let jump := c.jump_action_queued && !s.is_in_air
  let vy2 := if jump then INITIAL_JUMP_SPEED_IN_Y else s.speed.2
  let air2 := if jump then true else s.is_in_air
  let c2 : Controller := ⟨if jump then false else c.jump_action_queued⟩
  let vy3 := if air2 then vy2 - GRAVITY * dt else 0
  let air3 := if air2 then decide (y1 ≥ GROUND_Y_LEVEL) else air2
  let y4 := max (y1 + vy3 * dt) GROUND_Y_LEVEL
  ({ s with x := x1, y := y4, speed := (s.speed.1, vy3), is_in_air := air3 }, c2)

/-- The `GameState` fields used by `GameState.update` (models.py lines
24-35); `player_x` stands for `self.player.x`. -/
structure GameState where
  camera_position : ℚ
  total_time_played : ℚ
  player_x : ℚ
deriving DecidableEq

/-- Embeds `GameState.update` (models.py lines 33-35): the camera snaps to
the player and the play-time accumulator grows by `dt`. -/
def GameState.update (s : GameState) (dt : ℚ) : GameState :=
  { s with camera_position := s.player_x,
           total_time_played := s.total_time_played + dt }

/-- An obstacle probe at position `(x, 0)` with the bounds every extent
set to `0.1`, the values `Player.__init__` uses (models.py lines 140-143);
used as concrete test data. -/
def mkObst (x : ℚ) : CollisionObject :=
  ⟨x, 0, 1/10, 1/10, 1/10, 1/10⟩

/-- Any draw sequence; the placement code never reaches a draw. -/
def drawsZero : ℕ → ℚ := fun _ => 0

/-- A grounded player at `x = 0` with zero vertical speed, the state of the
jump scenario. -/
def pGround : Player :=
  { x := 0, y := GROUND_Y_LEVEL, lower_x_bound := 1/10, higher_x_bound := 1/10,
    lower_y_bound := 1/10, higher_y_bound := 1/10, speed := (1/10, 0),
    is_in_air := false }

/-- An airborne player at `y = 0` (above ground) with zero speed. -/
def pAir : Player :=
  { x := 0, y := 0, lower_x_bound := 1/10, higher_x_bound := 1/10,
    lower_y_bound := 1/10, higher_y_bound := 1/10, speed := (0, 0),
    is_in_air := true }

/-- C1: `A.is_colliding_with_object B` returns true iff
`B.lower_x_bound ≤ A.x − B.x ≤ B.higher_x_bound` and
`B.lower_y_bound ≤ A.y − B.y ≤ B.higher_y_bound`, using only B's bounds;
the embedding is a pure predicate because the method mutates nothing. -/
theorem C1_is_colliding_iff (a b : CollisionObject) :
    a.is_colliding_with_object b = true ↔
      (b.lower_x_bound ≤ a.x - b.x ∧ a.x - b.x ≤ b.higher_x_bound ∧
       b.lower_y_bound ≤ a.y - b.y ∧ a.y - b.y ≤ b.higher_y_bound) := by
  simp [CollisionObject.is_colliding_with_object, and_assoc]

/-- C8: after `GameState.update dt` the camera equals the player's x and
the play time has grown by exactly `dt`; the time never decreases for
`dt ≥ 0`; and over ticks `[0.1, 0.2, 0.05]` starting from `0` the total is
`0.35`. -/
theorem C8_gamestate_update :
    (∀ (s : GameState) (dt : ℚ),
        (s.update dt).camera_position = s.player_x ∧
        (s.update dt).total_time_played = s.total_time_played + dt) ∧
    (∀ (s : GameState) (dt : ℚ), 0 ≤ dt →
        s.total_time_played ≤ (s.update dt).total_time_played) ∧
    (List.foldl (fun s dt => s.update dt) (⟨0, 0, 0⟩ : GameState)
        [1/10, 1/5, 1/20]).total_time_played = 7/20 := by
  refine ⟨fun s dt => ⟨rfl, rfl⟩, fun s dt h => ?_, by norm_num [GameState.update]⟩
  simp [GameState.update]
  linarith

/-- C9: the probe collision test depends only on the bounds of the second
object and on the coordinate offsets between the two objects, and it is
not symmetric: the concrete pair `A = (0.1, 0.1)`, `B = (0, 0)` with all
extents `0.1` collides one way but not the other. -/
theorem C9_asymmetry :
    (∀ a b a2 b2 : CollisionObject,
        b.lower_x_bound = b2.lower_x_bound →
        b.higher_x_bound = b2.higher_x_bound →
        b.lower_y_bound = b2.lower_y_bound →
        b.higher_y_bound = b2.higher_y_bound →
        a.x - b.x = a2.x - b2.x → a.y - b.y = a2.y - b2.y →
        a.is_colliding_with_object b = a2.is_colliding_with_object b2) ∧
    ((⟨1/10, 1/10, 1/10, 1/10, 1/10, 1/10⟩ :
        CollisionObject).is_colliding_with_object (mkObst 0) = true ∧
     (mkObst 0).is_colliding_with_object
        ⟨1/10, 1/10, 1/10, 1/10, 1/10, 1/10⟩ = false) := by
  refine ⟨fun a b a2 b2 h1 h2 h3 h4 hx hy => ?_,
    by norm_num [CollisionObject.is_colliding_with_object, mkObst],
    by norm_num [CollisionObject.is_colliding_with_object, mkObst]⟩
  simp [CollisionObject.is_colliding_with_object, h1, h2, h3, h4, hx, hy]

/-- C2: every call to `add_new_obstacle` appends the obstacle to the tail
and then raises `TypeError` inside `_set_random_position`, because line 71
evaluates `cls.obstacles <= 0` (deque versus int); no spawn position is
ever assigned, contradicting the claim that the operation completes
without raising. -/
theorem C2_add_new_obstacle_raises (obstacles : List CollisionObject)
    (obstacle : CollisionObject) (draws : ℕ → ℚ) (fuel : ℕ) :
    add_new_obstacle obstacles obstacle draws fuel =
      (obstacles ++ [obstacle], some typeErrorDequeInt) := rfl

/-- C5: an obstacle at `x = 0` with camera position `P = 2` and
`D = DESTRUCT_OFFSET_IN_X = 1` satisfies the expiry condition
`x ≤ P − D`, yet `check_for_destroy` leaves the manager sequence exactly
as it was: `del self` removes nothing from the deque. -/
theorem C5_check_for_destroy_noop :
    (mkObst 0).x ≤ 2 - DESTRUCT_OFFSET_IN_X ∧
    check_for_destroy 2 (mkObst 0) [mkObst 0, mkObst 3] =
      [mkObst 0, mkObst 3] := by
  refine ⟨by norm_num [mkObst, DESTRUCT_OFFSET_IN_X], ?_⟩
  simp [check_for_destroy]

/-- C6: spawning the first obstacle through the manager placement path
raises `TypeError` on line 71 before any position is assigned, so the
obstacle keeps its constructor x (here 0) instead of receiving
`player.x + FIRST_OBSTACLE_OFFSET_IN_X`; the helper
`_simple_set_obstacle_at_the_right_of_player`, had it been reached and
called with its argument, would indeed have produced `x = 5.8` for a
player at `x = 5`. -/
theorem C6_first_obstacle :
    add_new_obstacle [] (mkObst 0) drawsZero 10 =
      ([mkObst 0], some typeErrorDequeInt) ∧
    (mkObst 0).x = 0 ∧
    simple_set_obstacle_at_the_right_of_player 5 (mkObst 0) [] =
      [mkObst (29/5)] := by
  refine ⟨rfl, rfl, ?_⟩
  norm_num [simple_set_obstacle_at_the_right_of_player, mkObst,
    FIRST_OBSTACLE_OFFSET_IN_X]

/-- C7: successive `add_new_obstacle` calls do not enforce ascending x.
Each call raises `TypeError` after the append, leaving every obstacle at
its constructor x, so adding obstacles at `x = 10` then `x = 5` yields the
sequence `[10, 5]`, which is not strictly increasing in x. -/
theorem C7_not_monotone :
    (add_new_obstacle
        ((add_new_obstacle [] (mkObst 10) drawsZero 10).1)
        (mkObst 5) drawsZero 10).1 = [mkObst 10, mkObst 5] ∧
    (add_new_obstacle [] (mkObst 10) drawsZero 10).2 =
      some typeErrorDequeInt ∧
    ¬ List.Chain' (fun p q : CollisionObject => p.x < q.x)
        [mkObst 10, mkObst 5] := by
  refine ⟨rfl, rfl, ?_⟩
  simp [List.chain'_cons, mkObst]
  norm_num

/-- C3 counterexample: starting grounded at `y = GROUND_Y_LEVEL` with
`vy = 0` and a queued jump, after `Player.update` with `dt = 1` the
vertical speed is `0.1`, not `INITIAL_JUMP_SPEED_IN_Y = 0.3`: gravity is
subtracted on the very tick the jump starts. -/
theorem C3_counterexample :
    (Player.update pGround ⟨true⟩ 1).1.speed.2 ≠ INITIAL_JUMP_SPEED_IN_Y := by
  norm_num [Player.update, pGround, INITIAL_JUMP_SPEED_IN_Y, GRAVITY,
    GROUND_Y_LEVEL]

/-- A grounded player at horizontal position `x` with horizontal speed
`vx`, vertical speed `0`, resting at `GROUND_Y_LEVEL`. -/
def groundedPlayer (x vx : ℚ) : Player :=
  { x := x, y := GROUND_Y_LEVEL, lower_x_bound := 1/10, higher_x_bound := 1/10,
    lower_y_bound := 1/10, higher_y_bound := 1/10, speed := (vx, 0),
    is_in_air := false }

/-- C3 amended: starting grounded at `y = GROUND_Y_LEVEL` with `vy = 0`
and a queued jump, after `Player.update` the vertical speed equals
`INITIAL_JUMP_SPEED_IN_Y - GRAVITY * dt` (gravity already applies on the
jump tick), the airborne flag is true, and the queued-jump flag is
cleared. -/
theorem C3_amended_jump (x vx dt : ℚ) (c : Controller)
    (h : c.jump_action_queued = true) :
    (Player.update (groundedPlayer x vx) c dt).1.speed.2 =
      INITIAL_JUMP_SPEED_IN_Y - GRAVITY * dt ∧
    (Player.update (groundedPlayer x vx) c dt).1.is_in_air = true ∧
    (Player.update (groundedPlayer x vx) c dt).2.jump_action_queued = false := by
  simp [Player.update, groundedPlayer, h]

/-- C3 witness: the amended jump theorem at the concrete state
`groundedPlayer 0 0`, queued controller, `dt = 1`. -/
theorem C3_witness :
    (Player.update (groundedPlayer 0 0) ⟨true⟩ 1).1.speed.2 =
      INITIAL_JUMP_SPEED_IN_Y - GRAVITY * 1 ∧
    (Player.update (groundedPlayer 0 0) ⟨true⟩ 1).1.is_in_air = true ∧
    (Player.update (groundedPlayer 0 0) ⟨true⟩ 1).2.jump_action_queued = false :=
  C3_amended_jump 0 0 1 ⟨true⟩ rfl

/-- C4 counterexample: an airborne player whose y at the moment of the
check is `0 ≥ GROUND_Y_LEVEL` still has the airborne flag set to true
after the update — the code sets the flag to `y ≥ GROUND_Y_LEVEL`, it
does not clear it under that condition. -/
theorem C4_counterexample :
    GROUND_Y_LEVEL ≤ pAir.y + pAir.speed.2 * 1 ∧
    (Player.update pAir ⟨false⟩ 1).1.is_in_air = true := by
  constructor
  · norm_num [pAir, GROUND_Y_LEVEL]
  · norm_num [Player.update, pAir, GROUND_Y_LEVEL]

/-- C4 amended: when the player is airborne, `Player.update` subtracts
`GRAVITY * dt` from the vertical speed and sets the airborne flag to
`y ≥ GROUND_Y_LEVEL` evaluated at the moment of the check (after the
position step), so the flag is cleared exactly when `y < GROUND_Y_LEVEL`
there — the opposite polarity of the claim. -/
theorem C4_amended_airborne (s : Player) (c : Controller) (dt : ℚ)
    (h : s.is_in_air = true) :
    (Player.update s c dt).1.speed.2 = s.speed.2 - GRAVITY * dt ∧
    (Player.update s c dt).1.is_in_air =
      decide (GROUND_Y_LEVEL ≤ s.y + s.speed.2 * dt) := by
  simp [Player.update, h]

/-- C4 witness: the amended airborne theorem at the concrete state
`pAir`, idle controller, `dt = 1`. -/
theorem C4_witness :
    (Player.update pAir ⟨false⟩ 1).1.speed.2 = pAir.speed.2 - GRAVITY * 1 ∧
    (Player.update pAir ⟨false⟩ 1).1.is_in_air =
      decide (GROUND_Y_LEVEL ≤ pAir.y + pAir.speed.2 * 1) :=
  C4_amended_airborne pAir ⟨false⟩ 1 rfl

/-- C10: for every input state and `dt ≥ 0`, after `Player.update` the
player's y satisfies `y ≥ GROUND_Y_LEVEL`: the final
`y = max(y + vy * dt, GROUND_Y_LEVEL)` clamp enforces it. -/
theorem C10_ground_clamp (s : Player) (c : Controller) (dt : ℚ)
    (h : 0 ≤ dt) :
    GROUND_Y_LEVEL ≤ (Player.update s c dt).1.y := by
  simp only [Player.update]
  exact le_max_right _ _

/-- C10 witness: the ground clamp theorem at the concrete state
`pGround`, idle controller, `dt = 1`. -/
theorem C10_witness :
    (0 : ℚ) ≤ 1 ∧ GROUND_Y_LEVEL ≤ (Player.update pGround ⟨false⟩ 1).1.y :=
  ⟨by norm_num, C10_ground_clamp pGround ⟨false⟩ 1 (by norm_num)⟩
